import Mathlib

/-!
Verification of the Theatre-API-Service backend (Django / Django REST framework).

Shallow embedding of the data model and the operations of
`theatre/models.py`, `theatre/serializers.py` and `theatre/views.py`:

* rows of the relational store become Lean structures, the store itself a
  structure of lists (one list per table);
* Django `IntegerField` values are `Int`, auto primary keys are `Nat`;
* raising an exception becomes `Except PyError`; `rest_framework`'s
  `ValidationError({field: message})` is `PyError.validationError field message`,
  Python's `ValueError` (from `int()`) is `PyError.valueError`;
* `transaction.atomic` is modelled by the `Except` result: an `.error`
  outcome leaves the caller's store untouched (rollback), only an `.ok`
  carries a new store.

Character fields irrelevant to the verified properties (descriptions,
timestamps rendered from `auto_now_add`, image-path mangling) are omitted;
`Meta.ordering` clauses only permute rows and are not modelled, membership
and multiplicity statements are unaffected.
-/

/-- Exceptions that the embedded code can raise.
`validationError` carries the single `{field: message}` pair the repository
always raises; `valueError` is Python's `ValueError`; `doesNotExist` stands
for a dangling foreign-key dereference. -/
inductive PyError where
  | validationError (field : String) (message : String)
  | valueError
  | doesNotExist
  deriving Repr, DecidableEq

deriving instance DecidableEq for Except

/-- `theatre.models.TheatreHall`: name, row count, seats per row. -/
structure TheatreHall where
  id : Nat
  name : String
  rows : Int
  seats_in_row : Int
  deriving Repr, DecidableEq

/-- `TheatreHall.capacity` property: `rows * seats_in_row`. -/
def TheatreHall.capacity (h : TheatreHall) : Int :=
  h.rows * h.seats_in_row

/-- Python `getattr(hall, attr_name)` restricted to the integer attributes
`validate_ticket` reads through its attribute-name table. -/
def TheatreHall.getattr (h : TheatreHall) : String → Int
  | "rows" => h.rows
  | "seats_in_row" => h.seats_in_row
  | "capacity" => h.capacity
  | _ => 0

/-- The error message `validate_ticket` builds:
`f"{name} number must be in available range:(1, {count_attrs})"`. -/
def ticketRangeMessage (ticket_attr_name : String) (count_attrs : Int) : String :=
  ticket_attr_name ++ " number must be in available range:(1, " ++
    toString count_attrs ++ ")"

/-- The `for` loop inside `Ticket.validate_ticket`: walks the list of
`(ticket_attr_value, ticket_attr_name, theatre_hall_attr_name)` triples,
reads the hall attribute, and raises `error_to_raise({name: message})` on
the first value outside `1 <= value <= count_attrs`. -/
def validateTicketLoop (performance : TheatreHall)
    (error_to_raise : String → String → PyError) :
    List (Int × String × String) → Except PyError Unit
  | [] => .ok ()
  | (ticket_attr_value, ticket_attr_name, theatre_hall_attr_name) :: rest =>
      let count_attrs := performance.getattr theatre_hall_attr_name
      if 1 ≤ ticket_attr_value ∧ ticket_attr_value ≤ count_attrs then
        validateTicketLoop performance error_to_raise rest
      else
        .error (error_to_raise ticket_attr_name
          (ticketRangeMessage ticket_attr_name count_attrs))

/-- `theatre.models.Ticket.validate_ticket(row, seat, performance, error_to_raise)`.
Both call sites pass the performance's `theatre_hall` for the `performance`
parameter, so the parameter has type `TheatreHall` here.  Note the second
table entry checks `seat` against `capacity`, not `seats_in_row`. -/
def Ticket.validate_ticket (row seat : Int) (performance : TheatreHall)
    (error_to_raise : String → String → PyError) : Except PyError Unit :=
  validateTicketLoop performance error_to_raise
    [(row, "row", "rows"), (seat, "seat", "capacity")]

/-- `theatre.models.Performance` (the `show_time` value is irrelevant to the
verified properties and kept as an opaque integer timestamp). -/
structure Performance where
  id : Nat
  play : Nat
  theatre_hall : Nat
  show_time : Int
  deriving Repr, DecidableEq

/-- `theatre.models.Reservation` (`created_at` is set by the framework and
not modelled). -/
structure Reservation where
  id : Nat
  user : Nat
  deriving Repr, DecidableEq

/-- A persisted `theatre.models.Ticket` row. -/
structure TicketRow where
  row : Int
  seat : Int
  reservation : Nat
  performance : Nat
  deriving Repr, DecidableEq

/-- The relational store as seen by the booking endpoints. -/
structure DB where
  halls : List TheatreHall
  performances : List Performance
  reservations : List Reservation
  tickets : List TicketRow
  deriving Repr, DecidableEq

/-- Foreign-key dereference `performance.theatre_hall` for the performance
with primary key `pid`. -/
def DB.perfHall (db : DB) (pid : Nat) : Option TheatreHall := do
  let p ← db.performances.find? (fun q => q.id == pid)
  db.halls.find? (fun h => h.id == p.theatre_hall)

/-- Django's `Model.full_clean` uniqueness pass for
`Meta.unique_together = ("row", "seat", "performance")`: a `ValidationError`
when an already-persisted ticket carries the same triple. -/
def Ticket.validate_unique (db : DB) (t : TicketRow) : Except PyError Unit :=
  if db.tickets.any (fun u =>
      u.row == t.row && u.seat == t.seat && u.performance == t.performance) then
    .error (.validationError "__all__"
      "Ticket with this Row, Seat and Performance already exists.")
  else
    .ok ()

/-- `Ticket.clean`: `validate_ticket(self.row, self.seat,
self.performance.theatre_hall, ValidationError)`. -/
def Ticket.clean (db : DB) (t : TicketRow) : Except PyError Unit := do
  match db.perfHall t.performance with
  | none => .error .doesNotExist
  | some hall => Ticket.validate_ticket t.row t.seat hall .validationError

/-- `Ticket.save`: runs `full_clean` — which calls `clean` (the range check)
and then the `unique_together` check — before inserting the row. -/
def Ticket.save (db : DB) (t : TicketRow) : Except PyError DB := do
  Ticket.clean db t
  Ticket.validate_unique db t
  .ok { db with tickets := db.tickets ++ [t] }

/-- One entry of the nested `tickets` payload of a reservation request:
row, seat and a reference to a performance. -/
structure TicketSpec where
  row : Int
  seat : Int
  performance : Nat
  deriving Repr, DecidableEq

/-- The `Ticket` row built by `Ticket.objects.create(reservation=reservation,
**ticket_data)` for reservation `rid`. -/
def TicketSpec.toRow (s : TicketSpec) (rid : Nat) : TicketRow :=
  { row := s.row, seat := s.seat, reservation := rid, performance := s.performance }

/-- Auto-increment primary key for the next `Reservation` row. -/
def DB.nextReservationId (db : DB) : Nat :=
  1 + db.reservations.foldl (fun m r => max m r.id) 0

/-- The `for ticket_data in tickets_data` loop of
`ReservationSerializer.create`: inserts one ticket row per specification,
each through `Ticket.save` (so each is re-validated at the model layer). -/
def createTicketsLoop (rid : Nat) : DB → List TicketSpec → Except PyError DB
  | db, [] => .ok db
  | db, s :: rest => do
      let db' ← Ticket.save db (s.toRow rid)
      createTicketsLoop rid db' rest

namespace ReservationSerializer

/-- `theatre.serializers.ReservationSerializer.create`, run inside
`transaction.atomic()`: create the `Reservation` row, then one `Ticket` row
per specification.  A raise anywhere inside rolls the transaction back, so
an `.error` result leaves the store at the caller's `db`. -/
def create (db : DB) (user : Nat) (tickets_data : List TicketSpec) :
    Except PyError DB :=
  let reservation : Reservation := { id := db.nextReservationId, user := user }
  createTicketsLoop reservation.id
    { db with reservations := db.reservations ++ [reservation] } tickets_data

end ReservationSerializer

/-- The store after a reservation request returns: the new store on success,
the unchanged one on failure (`transaction.atomic` rollback). -/
def reservationPostState (db : DB) (user : Nat) (tickets_data : List TicketSpec) : DB :=
  match ReservationSerializer.create db user tickets_data with
  | .ok db' => db'
  | .error _ => db

namespace TicketSerializer

/-- `theatre.serializers.TicketSerializer.validate`: calls
`Ticket.validate_ticket(attrs["row"], attrs["seat"],
attrs["performance"].theatre_hall, ValidationError)`.  An unknown
performance id is rejected by the serializer's relation field before this
runs, hence `doesNotExist` there. -/
def validate (db : DB) (s : TicketSpec) : Except PyError Unit :=
  match db.perfHall s.performance with
  | none => .error .doesNotExist
  | some hall => Ticket.validate_ticket s.row s.seat hall .validationError

end TicketSerializer

/-- The serializer `is_valid()` pass over the nested ticket payload: the
`tickets` field has `allow_empty=False`, and each entry goes through
`TicketSerializer.validate`.  No store write happens here. -/
def reservationIsValid (db : DB) : List TicketSpec → Except PyError Unit
  | [] => .error (.validationError "tickets" "This list may not be empty.")
  | specs => specs.forM (fun s => TicketSerializer.validate db s)

/-- The reservation-creation endpoint: `serializer.is_valid()` first (request
boundary, no writes), then `perform_create` → `serializer.save(user=request.user)`
→ `ReservationSerializer.create`. -/
def reservationEndpoint (db : DB) (user : Nat) (tickets_data : List TicketSpec) :
    Except PyError DB := do
  reservationIsValid db tickets_data
  ReservationSerializer.create db user tickets_data

/-- The store after the reservation endpoint returns (an `.error` leaves it
unchanged: validation precedes any write, and the write itself is inside
`transaction.atomic`). -/
def endpointPostState (db : DB) (user : Nat) (tickets_data : List TicketSpec) : DB :=
  match reservationEndpoint db user tickets_data with
  | .ok db' => db'
  | .error _ => db

namespace ReservationViewSet

/-- `theatre.views.ReservationViewSet.get_queryset`:
`self.queryset.filter(user=self.request.user)` (the `prefetch_related` branch
only preloads related rows and does not change the result set). -/
def get_queryset (db : DB) (user : Nat) : List Reservation :=
  db.reservations.filter (fun r => r.user == user)

end ReservationViewSet

/-- `Count("tickets")` of the performance-list annotation: the number of
persisted ticket rows whose `performance` foreign key is `pid`. -/
def DB.ticketCount (db : DB) (pid : Nat) : Nat :=
  (db.tickets.filter (fun t => t.performance == pid)).length

namespace PerformanceViewSet

/-- `theatre.views.PerformanceViewSet.get_queryset` on the `list` action:
each performance annotated with
`ticket_available = F("theatre_hall__rows") * F("theatre_hall__seats_in_row")
- Count("tickets")`, evaluated against the store at query time.  A dangling
hall foreign key (impossible for persisted rows) yields `none`.
`order_by("id")` only permutes the rows and is not modelled. -/
def listQueryset (db : DB) : List (Performance × Option Int) :=
  db.performances.map (fun p =>
    (p, (db.halls.find? (fun h => h.id == p.theatre_hall)).map
      (fun h => h.rows * h.seats_in_row - (db.ticketCount p.id : Int))))

end PerformanceViewSet

/-- A `theatre.models.Play` row (`description` and the many-to-many links are
held apart; `image` is the stored upload payload, if any). -/
structure Play where
  id : Nat
  title : String
  image : Option (List Nat) := none
  deriving Repr, DecidableEq

/-- The catalog tables the play endpoints read: plays and the two
many-to-many link tables (`play_id`, `actor_id` / `genre_id` pairs).
Actor and genre ids are `Int` because the filter ids come from Python
`int()`. -/
structure CatalogDB where
  plays : List Play
  playActors : List (Nat × Int)
  playGenres : List (Nat × Int)
  deriving Repr, DecidableEq

/-- Whitespace as stripped by Python `int()` around a numeric literal. -/
def pyIsSpace (c : Char) : Bool :=
  c == ' ' || c == '\t' || c == '\n' || c == '\r'

/-- Strip leading and trailing whitespace from a character list. -/
def stripChars (l : List Char) : List Char :=
  ((l.dropWhile pyIsSpace).reverse.dropWhile pyIsSpace).reverse

/-- A non-empty all-digit character list as a natural number. -/
def charsToNat? (l : List Char) : Option Nat :=
  if !l.isEmpty && l.all Char.isDigit then
    some (l.foldl (fun acc c => 10 * acc + (c.toNat - 48)) 0)
  else
    none

/-- Python `int(s)` on a string: optional surrounding whitespace, optional
sign, decimal digits; raises `ValueError` (here `none`) otherwise. -/
def pyInt (s : String) : Option Int :=
  match stripChars s.toList with
  | '-' :: ds => (charsToNat? ds).map (fun n => -(n : Int))
  | '+' :: ds => (charsToNat? ds).map (fun n => (n : Int))
  | ds => (charsToNat? ds).map (fun n => (n : Int))

/-- Python `s.split(",")` on the character level: cuts at every comma,
keeping empty pieces. -/
def splitCommaChars (acc : List Char) : List Char → List (List Char)
  | [] => [acc.reverse]
  | c :: cs =>
      if c == ',' then acc.reverse :: splitCommaChars [] cs
      else splitCommaChars (c :: acc) cs

/-- Does `needle` occur at the start of the character list? -/
def charsStartWith : List Char → List Char → Bool
  | [], _ => true
  | _ :: _, [] => false
  | a :: as, b :: bs => a == b && charsStartWith as bs

/-- Does `needle` occur contiguously anywhere in the character list? -/
def charsOccurIn (needle : List Char) : List Char → Bool
  | [] => charsStartWith needle []
  | b :: bs => charsStartWith needle (b :: bs) || charsOccurIn needle bs

/-- Python `needle.lower() in haystack.lower()` — the `title__icontains`
lookup: case-insensitive contiguous-substring test. -/
def icontains (haystack needle : String) : Bool :=
  charsOccurIn (needle.toList.map Char.toLower) (haystack.toList.map Char.toLower)

namespace PlayViewSet

/-- `theatre.views.PlayViewSet._params_to_ints`:
`[int(str_id) for str_id in qs.split(",")]`; `none` is the uncaught
`ValueError` when a token is not an integer literal. -/
def params_to_ints (qs : String) : Option (List Int) :=
  ((splitCommaChars [] qs.toList).map String.mk).mapM pyInt

end PlayViewSet

/-- `queryset.filter(<link>__id__in=ids)`: SQL joins the many-to-many link
table, so the result holds one copy of the play per link row whose actor
(or genre) id is among `ids` — a play matching several ids is duplicated
unless `distinct()` is applied afterwards. -/
def filterLinkIdIn (links : List (Nat × Int)) (ids : List Int)
    (queryset : List Play) : List Play :=
  queryset.flatMap (fun p =>
    (links.filter (fun l => decide (l.1 = p.id) && decide (l.2 ∈ ids))).map
      (fun _ => p))

/-- The three query parameters `PlayViewSet.get_queryset` reads. -/
structure PlayQueryParams where
  title : Option String := none
  actors : Option String := none
  genres : Option String := none
  deriving Repr, DecidableEq

/-- `if title:` — a missing parameter and the empty string are both falsy. -/
def paramTruthy : Option String → Bool
  | none => false
  | some s => !s.isEmpty

namespace PlayViewSet

/-- `theatre.views.PlayViewSet.get_queryset`: applies the `title`
(case-insensitive substring), `actors` and `genres` (id-membership) filters
that are present and truthy, then — only when the action is neither `list`
nor `retrieve` — deduplicates with `distinct()`.  `Meta.ordering = ["title"]`
and `prefetch_related` are not modelled (a permutation and a preload).
A non-integer id token propagates `ValueError` out of the view. -/
def get_queryset (db : CatalogDB) (action : String) (params : PlayQueryParams) :
    Except PyError (List Play) := do
  let queryset := db.plays
  let queryset :=
    match params.title with
    | some t => if !t.isEmpty then queryset.filter (fun p => icontains p.title t)
                else queryset
    | none => queryset
  let queryset ←
    match params.actors with
    | some a =>
        if !a.isEmpty then
          match params_to_ints a with
          | some actor_ids => pure (filterLinkIdIn db.playActors actor_ids queryset)
          | none => throw .valueError
        else pure queryset
    | none => pure queryset
  let queryset ←
    match params.genres with
    | some g =>
        if !g.isEmpty then
          match params_to_ints g with
          | some genre_ids => pure (filterLinkIdIn db.playGenres genre_ids queryset)
          | none => throw .valueError
        else pure queryset
    | none => pure queryset
  if action = "list" ∨ action = "retrieve" then
    pure queryset
  else
    pure queryset.dedup

end PlayViewSet

namespace PerformanceSetPagination

/-- `theatre.views.PerformanceSetPagination.page_size`. -/
def page_size : Nat := 3

/-- `theatre.views.PerformanceSetPagination.page_size_query_param`. -/
def page_size_query_param : String := "page_size"

/-- `theatre.views.PerformanceSetPagination.max_page_size`. -/
def max_page_size : Nat := 20

/-- Modelled from the spec: "Pagination: fixed page size with an overridable
page-size query parameter and a maximum cap."  The generic
`PageNumberPagination.get_page_size` machinery lives in the external REST
framework, outside this repository's sources; per its documented contract a
positive integer value of the `page_size` query parameter is used after
capping at `max_page_size`, and a missing, zero, negative or non-integer
value falls back to the fixed `page_size`. -/
def get_page_size (param : Option String) : Nat :=
  match param with
  | none => page_size
  | some s =>
      match pyInt s with
      | some n => if 0 < n then min n.toNat max_page_size else page_size
      | none => page_size

/-- Modelled from the spec (same external machinery): page number `page`
(1-based) of the rows under the effective page size. -/
def paginate {α : Type} (rows : List α) (param : Option String) (page : Nat) :
    List α :=
  ((rows.drop ((page - 1) * get_page_size param)).take (get_page_size param))

end PerformanceSetPagination

/-- Modelled from the spec: `PlayImageSerializer` is imported by
`theatre/views.py` from `theatre.serializers` but its definition is missing
from the provided sources.  Spec: "Image upload is a dedicated endpoint
accepting multipart file data, validating it is a decodable image before
acceptance."  `decode` is the external image library: `some` is the decoded
image, `none` a payload that is not a decodable image. -/
def PlayImageSerializer.is_valid (decode : List Nat → Option (List Nat))
    (data : List Nat) : Bool :=
  (decode data).isSome

/-- An HTTP outcome of the upload endpoint: status code, the fields named in
the error body, and the play row afterwards. -/
structure UploadOutcome where
  status : Nat
  errorFields : List String
  play : Play
  deriving Repr, DecidableEq

namespace PlayViewSet

/-- `theatre.views.PlayViewSet.upload_image`: builds the serializer over the
play and the posted payload; `if serializer.is_valid(): save; 200` else
`Response(serializer.errors, 400)` — the play keeps its previous image.
The validity test itself is the spec-modelled `PlayImageSerializer`. -/
def upload_image (decode : List Nat → Option (List Nat)) (play : Play)
    (data : List Nat) : UploadOutcome :=
  if PlayImageSerializer.is_valid decode data then
    { status := 200, errorFields := [], play := { play with image := some data } }
  else
    { status := 400, errorFields := ["image"], play := play }

end PlayViewSet

/-! ## Concrete fixtures (the spec's 20 x 20 example hall and small catalogs) -/

def sampleHall : TheatreHall := { id := 1, name := "Blue", rows := 20, seats_in_row := 20 }

def samplePerformance : Performance := { id := 1, play := 1, theatre_hall := 1, show_time := 0 }

def sampleDB : DB :=
  { halls := [sampleHall], performances := [samplePerformance],
    reservations := [], tickets := [] }

def sampleTicket : TicketRow := { row := 1, seat := 1, reservation := 1, performance := 1 }

def sampleDBSaved : DB := { sampleDB with tickets := [sampleTicket] }

def sampleSpec : TicketSpec := { row := 1, seat := 1, performance := 1 }

/-- The store produced by a successful one-ticket reservation on `sampleDB`. -/
def sampleCreated : DB :=
  { sampleDB with reservations := [{ id := 1, user := 7 }],
                  tickets := [sampleSpec.toRow 1] }

def tinyHall : TheatreHall := { id := 2, name := "Tiny", rows := 1, seats_in_row := 1 }

def bookedPerformance : Performance := { id := 5, play := 1, theatre_hall := 2, show_time := 0 }

/-- A store whose single 1 x 1 hall is fully booked. -/
def bookedDB : DB :=
  { halls := [tinyHall], performances := [bookedPerformance],
    reservations := [{ id := 1, user := 1 }],
    tickets := [{ row := 1, seat := 1, reservation := 1, performance := 5 }] }

def hamlet : Play := { id := 1, title := "Hamlet" }

def othello : Play := { id := 2, title := "Othello" }

def sampleCatalog : CatalogDB :=
  { plays := [hamlet, othello],
    playActors := [(1, 1), (1, 2), (2, 3)],
    playGenres := [(1, 7), (2, 8)] }

/-- One play linked to both of the actors a filter will request. -/
def dupCatalog : CatalogDB :=
  { plays := [hamlet], playActors := [(1, 1), (1, 2)], playGenres := [] }

/-! ## Basic lemmas about the embedded operations -/

theorem except_bind_ok {ε α β : Type} (a : α) (f : α → Except ε β) :
    (Except.ok a >>= f) = f a := rfl

theorem except_bind_error {ε α β : Type} (e : ε) (f : α → Except ε β) :
    ((Except.error e : Except ε α) >>= f) = Except.error e := rfl

theorem validate_ticket_ok_iff (r s : Int) (h : TheatreHall)
    (e : String → String → PyError) :
    Ticket.validate_ticket r s h e = .ok () ↔
      ((1 ≤ r ∧ r ≤ h.rows) ∧ (1 ≤ s ∧ s ≤ h.capacity)) := by
  by_cases h1 : 1 ≤ r ∧ r ≤ h.rows <;>
    by_cases h2 : 1 ≤ s ∧ s ≤ h.capacity <;>
      simp [Ticket.validate_ticket, validateTicketLoop, TheatreHall.getattr, h1, h2]

theorem validate_ticket_row_error (r s : Int) (h : TheatreHall)
    (e : String → String → PyError) (hr : ¬(1 ≤ r ∧ r ≤ h.rows)) :
    Ticket.validate_ticket r s h e = .error (e "row" (ticketRangeMessage "row" h.rows)) := by
  simp [Ticket.validate_ticket, validateTicketLoop, TheatreHall.getattr, hr]

theorem validate_ticket_seat_error (r s : Int) (h : TheatreHall)
    (e : String → String → PyError) (hr : 1 ≤ r ∧ r ≤ h.rows)
    (hs : ¬(1 ≤ s ∧ s ≤ h.capacity)) :
    Ticket.validate_ticket r s h e = .error (e "seat" (ticketRangeMessage "seat" h.capacity)) := by
  simp [Ticket.validate_ticket, validateTicketLoop, TheatreHall.getattr, hr, hs]

theorem validate_unique_ok_iff (db : DB) (t : TicketRow) :
    Ticket.validate_unique db t = .ok () ↔
      ∀ u ∈ db.tickets, ¬(u.row = t.row ∧ u.seat = t.seat ∧ u.performance = t.performance) := by
  unfold Ticket.validate_unique
  split_ifs with hdup
  · simp only [List.any_eq_true, Bool.and_eq_true, beq_iff_eq] at hdup
    obtain ⟨u, hu, ⟨h1, h2⟩, h3⟩ := hdup
    constructor
    · intro hcontra
      cases hcontra
    · intro hall
      exact absurd ⟨h1, h2, h3⟩ (hall u hu)
  · simp only [List.any_eq_true, Bool.and_eq_true, beq_iff_eq] at hdup
    constructor
    · intro _ u hu hc
      exact absurd ⟨u, hu, ⟨hc.1, hc.2.1⟩, hc.2.2⟩ hdup
    · intro _
      rfl

theorem ticket_clean_eq (db : DB) (t : TicketRow) (h : TheatreHall)
    (hhall : db.perfHall t.performance = some h) :
    Ticket.clean db t = Ticket.validate_ticket t.row t.seat h .validationError := by
  simp [Ticket.clean, hhall]

theorem ticket_save_ok_shape (db : DB) (t : TicketRow) (db' : DB)
    (hsave : Ticket.save db t = .ok db') :
    db' = { db with tickets := db.tickets ++ [t] } := by
  unfold Ticket.save at hsave
  cases hc : Ticket.clean db t with
  | error e =>
      rw [hc, except_bind_error] at hsave
      cases hsave
  | ok u =>
      rw [hc, except_bind_ok] at hsave
      cases hu : Ticket.validate_unique db t with
      | error e =>
          rw [hu, except_bind_error] at hsave
          cases hsave
      | ok v =>
          rw [hu, except_bind_ok] at hsave
          injection hsave with h2
          exact h2.symm

theorem ticket_save_components (db : DB) (t : TicketRow) (db' : DB)
    (hsave : Ticket.save db t = .ok db') :
    Ticket.clean db t = .ok () ∧ Ticket.validate_unique db t = .ok () := by
  unfold Ticket.save at hsave
  cases hc : Ticket.clean db t with
  | error e =>
      rw [hc, except_bind_error] at hsave
      cases hsave
  | ok u =>
      rw [hc, except_bind_ok] at hsave
      cases hu : Ticket.validate_unique db t with
      | error e =>
          rw [hu, except_bind_error] at hsave
          cases hsave
      | ok v =>
          exact ⟨rfl, rfl⟩

/-! ## C1: ticket creation bounds and uniqueness -/

/-- C1: for a candidate ticket against a performance held in hall `h`,
creation through the model save path succeeds iff `1 ≤ row ≤ h.rows`,
`1 ≤ seat ≤ h.capacity` (with `capacity = rows * seats_in_row`) and no
already-persisted ticket carries the same `(row, seat, performance)` triple;
a bound violation raises a field-scoped validation error naming the
offending field and its valid range `(1, bound)`. -/
theorem c1_ticket_creation_bounds_and_unique (db : DB) (t : TicketRow)
    (h : TheatreHall) (hhall : db.perfHall t.performance = some h) :
    ((∃ db', Ticket.save db t = .ok db') ↔
      ((1 ≤ t.row ∧ t.row ≤ h.rows) ∧ (1 ≤ t.seat ∧ t.seat ≤ h.capacity) ∧
        ∀ u ∈ db.tickets,
          ¬(u.row = t.row ∧ u.seat = t.seat ∧ u.performance = t.performance)))
    ∧ (¬(1 ≤ t.row ∧ t.row ≤ h.rows) →
        Ticket.save db t = .error (.validationError "row"
          ("row number must be in available range:(1, " ++ toString h.rows ++ ")")))
    ∧ ((1 ≤ t.row ∧ t.row ≤ h.rows) → ¬(1 ≤ t.seat ∧ t.seat ≤ h.capacity) →
        Ticket.save db t = .error (.validationError "seat"
          ("seat number must be in available range:(1, " ++ toString h.capacity ++ ")"))) := by
  have hclean := ticket_clean_eq db t h hhall
  refine ⟨⟨?_, ?_⟩, ?_, ?_⟩
  · rintro ⟨db', hsave⟩
    obtain ⟨hok, huniq⟩ := ticket_save_components db t db' hsave
    rw [hclean] at hok
    obtain ⟨hr, hs⟩ := (validate_ticket_ok_iff t.row t.seat h .validationError).mp hok
    exact ⟨hr, hs, (validate_unique_ok_iff db t).mp huniq⟩
  · rintro ⟨hr, hs, huniq⟩
    refine ⟨{ db with tickets := db.tickets ++ [t] }, ?_⟩
    unfold Ticket.save
    rw [hclean, (validate_ticket_ok_iff t.row t.seat h .validationError).mpr ⟨hr, hs⟩,
      except_bind_ok, (validate_unique_ok_iff db t).mpr huniq, except_bind_ok]
  · intro hr
    unfold Ticket.save
    rw [hclean, validate_ticket_row_error t.row t.seat h .validationError hr,
      except_bind_error]
    rfl
  · intro hr hs
    unfold Ticket.save
    rw [hclean, validate_ticket_seat_error t.row t.seat h .validationError hr hs,
      except_bind_error]
    rfl

/-- Witness for C1 at the spec's 20 x 20 hall: ticket (row 1, seat 1) on an
empty store is creatable, and the iff's right side holds concretely. -/
theorem c1_witness :
    (∃ db', Ticket.save sampleDB sampleTicket = .ok db') :=
  ((c1_ticket_creation_bounds_and_unique sampleDB sampleTicket sampleHall
    (by decide)).1).mpr (by decide)

/-! ## C2: atomic reservation creation -/

theorem createTicketsLoop_ok (rid : Nat) (specs : List TicketSpec) :
    ∀ db db', createTicketsLoop rid db specs = .ok db' →
      db' = { db with tickets := db.tickets ++ specs.map (fun s => s.toRow rid) } := by
  induction specs with
  | nil =>
      intro db db' hloop
      unfold createTicketsLoop at hloop
      injection hloop with h2
      subst h2
      simp
  | cons s rest ih =>
      intro db db' hloop
      unfold createTicketsLoop at hloop
      cases hsave : Ticket.save db (s.toRow rid) with
      | error e =>
          rw [hsave, except_bind_error] at hloop
          cases hloop
      | ok db1 =>
          rw [hsave, except_bind_ok] at hloop
          have h1 := ticket_save_ok_shape db (s.toRow rid) db1 hsave
          have h2 := ih db1 db' hloop
          subst h1
          simp [h2, List.append_assoc]

theorem reservation_create_ok_shape (db : DB) (user : Nat)
    (specs : List TicketSpec) (db' : DB)
    (hcr : ReservationSerializer.create db user specs = .ok db') :
    db'.reservations =
        db.reservations ++ [{ id := db.nextReservationId, user := user }]
    ∧ db'.tickets = db.tickets ++ specs.map (fun s => s.toRow db.nextReservationId) := by
  unfold ReservationSerializer.create at hcr
  have h := createTicketsLoop_ok db.nextReservationId specs _ db' hcr
  rw [h]
  exact ⟨rfl, rfl⟩

/-- C2: reservation creation is all-or-nothing: for a submitted non-empty
list of ticket specifications either the call succeeds and the resulting
store holds exactly one new `Reservation` row (for the requesting user) and
exactly one new `Ticket` row per specification, or the call fails and the
store after the call is unchanged — zero `Reservation` and zero `Ticket`
rows persist. -/
theorem c2_reservation_all_or_nothing (db : DB) (user : Nat)
    (specs : List TicketSpec) (_hne : specs ≠ []) :
    (∃ db', ReservationSerializer.create db user specs = .ok db' ∧
        reservationPostState db user specs = db' ∧
        db'.reservations =
          db.reservations ++ [{ id := db.nextReservationId, user := user }] ∧
        db'.tickets = db.tickets ++ specs.map (fun s => s.toRow db.nextReservationId) ∧
        db'.reservations.length = db.reservations.length + 1 ∧
        db'.tickets.length = db.tickets.length + specs.length)
    ∨ ((∃ e, ReservationSerializer.create db user specs = .error e) ∧
        reservationPostState db user specs = db) := by
  cases hcr : ReservationSerializer.create db user specs with
  | ok db' =>
      left
      obtain ⟨hres, htick⟩ := reservation_create_ok_shape db user specs db' hcr
      exact ⟨db', rfl, by simp [reservationPostState, hcr], hres, htick,
        by simp [hres], by simp [htick]⟩
  | error e =>
      right
      exact ⟨⟨e, rfl⟩, by simp [reservationPostState, hcr]⟩

/-- Witness for C2 at a concrete store: one valid specification. -/
theorem c2_witness :
    (∃ db', ReservationSerializer.create sampleDB 7 [sampleSpec] = .ok db' ∧
        reservationPostState sampleDB 7 [sampleSpec] = db' ∧
        db'.reservations =
          sampleDB.reservations ++ [{ id := sampleDB.nextReservationId, user := 7 }] ∧
        db'.tickets =
          sampleDB.tickets ++ [sampleSpec].map (fun s => s.toRow sampleDB.nextReservationId) ∧
        db'.reservations.length = sampleDB.reservations.length + 1 ∧
        db'.tickets.length = sampleDB.tickets.length + [sampleSpec].length)
    ∨ ((∃ e, ReservationSerializer.create sampleDB 7 [sampleSpec] = .error e) ∧
        reservationPostState sampleDB 7 [sampleSpec] = sampleDB) :=
  c2_reservation_all_or_nothing sampleDB 7 [sampleSpec] (by decide)

/-! ## C3: availability annotation -/

theorem ticketCount_append_same (db : DB) (t : TicketRow) (pid : Nat)
    (hp : t.performance = pid) :
    DB.ticketCount { db with tickets := db.tickets ++ [t] } pid =
      db.ticketCount pid + 1 := by
  simp [DB.ticketCount, List.filter_append, hp]

/-- C3: every performance appears in the list queryset annotated with
`ticket_available = hall.rows * hall.seats_in_row - count(tickets of that
performance)`, and the value is recomputed at query time: after one more
ticket is persisted for the performance, listing again yields the value
decreased by one.  (A zero value is an ordinary annotation, not an error —
see the witness on a fully booked hall.) -/
theorem c3_performance_availability (db : DB) (p : Performance) (h : TheatreHall)
    (hp : p ∈ db.performances)
    (hh : db.halls.find? (fun q => q.id == p.theatre_hall) = some h) :
    ((p, some (h.rows * h.seats_in_row - (db.ticketCount p.id : Int))) ∈
        PerformanceViewSet.listQueryset db)
    ∧ (∀ t db', Ticket.save db t = .ok db' → t.performance = p.id →
        (p, some (h.rows * h.seats_in_row - (db.ticketCount p.id : Int) - 1)) ∈
          PerformanceViewSet.listQueryset db') := by
  constructor
  · unfold PerformanceViewSet.listQueryset
    refine List.mem_map.mpr ⟨p, hp, ?_⟩
    rw [hh]
    rfl
  · intro t db' hsave hperf
    have hshape := ticket_save_ok_shape db t db' hsave
    subst hshape
    unfold PerformanceViewSet.listQueryset
    refine List.mem_map.mpr ⟨p, hp, ?_⟩
    rw [show ({ db with tickets := db.tickets ++ [t] } : DB).halls = db.halls from rfl,
      hh]
    have hc := ticketCount_append_same db t p.id hperf
    simp only [Option.map_some', hc, Prod.mk.injEq, Option.some.injEq, true_and]
    push_cast
    ring

/-- Witness for C3: the fully booked 1 x 1 hall lists with availability
`1 * 1 - 1`, that is zero, without error. -/
theorem c3_witness :
    ((bookedPerformance, some (tinyHall.rows * tinyHall.seats_in_row -
        (bookedDB.ticketCount bookedPerformance.id : Int))) ∈
      PerformanceViewSet.listQueryset bookedDB)
    ∧ tinyHall.rows * tinyHall.seats_in_row -
        (bookedDB.ticketCount bookedPerformance.id : Int) = 0 :=
  ⟨(c3_performance_availability bookedDB bookedPerformance tinyHall
      (by decide) (by decide)).1, by decide⟩

/-! ## C4: missing deduplication on the list action -/

/-- C4 (failing input): a single play linked to both requested actor ids is
returned TWICE by `get_queryset` for the `list` action — the early return
for `list`/`retrieve` skips the final `distinct()`, which only the other
actions reach (second conjunct). -/
theorem c4_play_list_duplicates :
    PlayViewSet.get_queryset dupCatalog "list"
        { title := none, actors := some "1,2", genres := none } = .ok [hamlet, hamlet]
    ∧ PlayViewSet.get_queryset dupCatalog "create"
        { title := none, actors := some "1,2", genres := none } = .ok [hamlet] := by
  decide

/-! ## C5: composition of the play filters -/

theorem mem_filterLinkIdIn (links : List (Nat × Int)) (ids : List Int)
    (qs : List Play) (p : Play) :
    p ∈ filterLinkIdIn links ids qs ↔
      (p ∈ qs ∧ ∃ l ∈ links, l.1 = p.id ∧ l.2 ∈ ids) := by
  unfold filterLinkIdIn
  simp only [List.mem_flatMap, List.mem_map, List.mem_filter,
    Bool.and_eq_true, decide_eq_true_eq]
  constructor
  · rintro ⟨q, hq, l, ⟨hl, hfst, hsnd⟩, rfl⟩
    exact ⟨hq, l, hl, hfst, hsnd⟩
  · rintro ⟨hq, l, hl, hfst, hsnd⟩
    exact ⟨p, hq, l, ⟨hl, hfst, hsnd⟩, rfl⟩

theorem link_exists_comm (links : List (Nat × Int)) (ids : List Int) (pid : Nat) :
    (∃ l ∈ links, l.1 = pid ∧ l.2 ∈ ids) ↔ (∃ i ∈ ids, (pid, i) ∈ links) := by
  constructor
  · rintro ⟨⟨a, b⟩, hl, hfst, hsnd⟩
    cases hfst
    exact ⟨b, hsnd, hl⟩
  · rintro ⟨i, hi, hmem⟩
    exact ⟨(pid, i), hmem, rfl, hi⟩

/-- C5: with all three filters supplied on a play-list request — a title
substring, a comma-separated actor id list and a comma-separated genre id
list that both parse — the result contains exactly the plays satisfying
every filter kind (AND across kinds), where a multi-id filter is satisfied
by a link to any one of its ids (OR within a filter). -/
theorem c5_play_filters_compose (db : CatalogDB) (t a g : String)
    (aids gids : List Int) (res : List Play) (p : Play)
    (hta : t.isEmpty = false) (haa : a.isEmpty = false) (hga : g.isEmpty = false)
    (hpa : PlayViewSet.params_to_ints a = some aids)
    (hpg : PlayViewSet.params_to_ints g = some gids)
    (hres : PlayViewSet.get_queryset db "list"
        { title := some t, actors := some a, genres := some g } = .ok res) :
    p ∈ res ↔ (p ∈ db.plays ∧ icontains p.title t = true
      ∧ (∃ aid ∈ aids, (p.id, aid) ∈ db.playActors)
      ∧ (∃ gid ∈ gids, (p.id, gid) ∈ db.playGenres)) := by
  unfold PlayViewSet.get_queryset at hres
  simp [hta, haa, hga, hpa, hpg] at hres
  have h2 := Except.ok.inj hres
  subst h2
  rw [mem_filterLinkIdIn, mem_filterLinkIdIn, List.mem_filter,
    link_exists_comm, link_exists_comm]
  tauto

/-- Witness for C5 on a concrete two-play catalog: the play linked to actor
1 and genre 7 whose title contains "aml" satisfies the instantiated iff. -/
theorem c5_witness :
    hamlet ∈ [hamlet] ↔ (hamlet ∈ sampleCatalog.plays ∧
      icontains hamlet.title "aml" = true
      ∧ (∃ aid ∈ [(1 : Int)], (hamlet.id, aid) ∈ sampleCatalog.playActors)
      ∧ (∃ gid ∈ [(7 : Int)], (hamlet.id, gid) ∈ sampleCatalog.playGenres)) :=
  c5_play_filters_compose sampleCatalog "aml" "1" "7" [1] [7] [hamlet] hamlet
    (by decide) (by decide) (by decide) (by decide) (by decide) (by decide)

/-! ## C6: reservations are scoped to the requesting user -/

/-- C6: the reservation list queryset holds exactly the requester's
reservations — a row is in it iff it is persisted and owned by the
requesting user — and a reservation created through the API (which calls
`serializer.save(user=request.user)`) is owned by the requesting user:
any reservation row that is new after a successful create belongs to them. -/
theorem c6_reservations_scoped_to_user (db : DB) (user : Nat) (r : Reservation)
    (specs : List TicketSpec) (db' : DB)
    (hcr : ReservationSerializer.create db user specs = .ok db') :
    (r ∈ ReservationViewSet.get_queryset db user ↔
      r ∈ db.reservations ∧ r.user = user)
    ∧ (r ∈ db'.reservations → r ∉ db.reservations → r.user = user) := by
  constructor
  · simp [ReservationViewSet.get_queryset, List.mem_filter]
  · intro hmem hnew
    obtain ⟨hres, _⟩ := reservation_create_ok_shape db user specs db' hcr
    rw [hres] at hmem
    rcases List.mem_append.mp hmem with hold | hsingle
    · exact absurd hold hnew
    · rw [List.mem_singleton.mp hsingle]

/-- Witness for C6: the reservation created for user 7 on `sampleDB` is in
scope for user 7, instantiating both conjuncts concretely. -/
theorem c6_witness :
    (({ id := 1, user := 7 } : Reservation) ∈
        ReservationViewSet.get_queryset sampleDB 7 ↔
      ({ id := 1, user := 7 } : Reservation) ∈ sampleDB.reservations ∧ (7 : Nat) = 7)
    ∧ (({ id := 1, user := 7 } : Reservation) ∈ sampleCreated.reservations →
        ({ id := 1, user := 7 } : Reservation) ∉ sampleDB.reservations →
        (7 : Nat) = 7) :=
  c6_reservations_scoped_to_user sampleDB 7 { id := 1, user := 7 } [sampleSpec]
    sampleCreated (by decide)

/-! ## C7: the range check runs at both boundaries -/

theorem forM_validate_error (db : DB) (specs : List TicketSpec) (s : TicketSpec)
    (hs : s ∈ specs) (he : ∃ e, TicketSerializer.validate db s = .error e) :
    ∃ e2, specs.forM (fun x => TicketSerializer.validate db x) = .error e2 := by
  induction specs with
  | nil => cases hs
  | cons a rest ih =>
      rw [show ((a :: rest).forM (fun x => TicketSerializer.validate db x) :
          Except PyError Unit) =
        (TicketSerializer.validate db a >>= fun _ =>
          rest.forM (fun x => TicketSerializer.validate db x)) from rfl]
      cases hv : TicketSerializer.validate db a with
      | error e2 =>
          exact ⟨e2, by rw [except_bind_error]⟩
      | ok u =>
          rcases List.mem_cons.mp hs with rfl | hs2
          · obtain ⟨e, he2⟩ := he
            rw [hv] at he2
            cases he2
          · obtain ⟨e2, h2⟩ := ih hs2
            exact ⟨e2, by rw [except_bind_ok, h2]⟩

/-- C7: the seat/row range check is enforced at both boundaries.
Model boundary: a `Ticket.save` that succeeds has passed `validate_ticket`
against the performance's hall (save runs `full_clean`, which runs `clean`).
Request boundary: if any submitted specification fails
`TicketSerializer.validate`, the reservation endpoint — which runs the
serializer validation before `create` — fails, and the store after the call
is unchanged: no database write happened. -/
theorem c7_range_check_both_boundaries (db : DB) :
    (∀ t db', Ticket.save db t = .ok db' →
      ∃ h, db.perfHall t.performance = some h ∧
        Ticket.validate_ticket t.row t.seat h .validationError = .ok ())
    ∧ (∀ user specs s, s ∈ specs →
        (∃ e, TicketSerializer.validate db s = .error e) →
        (∃ e2, reservationEndpoint db user specs = .error e2) ∧
          endpointPostState db user specs = db) := by
  constructor
  · intro t db' hsave
    obtain ⟨hok, _⟩ := ticket_save_components db t db' hsave
    cases hh : db.perfHall t.performance with
    | none =>
        unfold Ticket.clean at hok
        rw [hh] at hok
        cases hok
    | some h =>
        refine ⟨h, rfl, ?_⟩
        rw [← ticket_clean_eq db t h hh]
        exact hok
  · intro user specs s hs he
    obtain ⟨e2, h2⟩ := forM_validate_error db specs s hs he
    have hvalid : reservationIsValid db specs = .error e2 := by
      cases specs with
      | nil => cases hs
      | cons a rest =>
          unfold reservationIsValid
          exact h2
    have hend : reservationEndpoint db user specs = .error e2 := by
      unfold reservationEndpoint
      rw [hvalid, except_bind_error]
    exact ⟨⟨e2, hend⟩, by simp [endpointPostState, hend]⟩

/-- Witness for C7: on the sample store, the successful save of the sample
ticket implies it passed the range check (first boundary), instantiated
concretely. -/
theorem c7_witness :
    ∃ h, sampleDB.perfHall sampleTicket.performance = some h ∧
      Ticket.validate_ticket sampleTicket.row sampleTicket.seat h
        .validationError = .ok () :=
  (c7_range_check_both_boundaries sampleDB).1 sampleTicket sampleDBSaved (by decide)

/-! ## C8: pagination defaults and cap -/

theorem get_page_size_le_cap (param : Option String) :
    PerformanceSetPagination.get_page_size param ≤
      PerformanceSetPagination.max_page_size := by
  unfold PerformanceSetPagination.get_page_size PerformanceSetPagination.max_page_size
  cases param with
  | none => decide
  | some s =>
      show (match pyInt s with
        | some n => if 0 < n then min n.toNat 20 else PerformanceSetPagination.page_size
        | none => PerformanceSetPagination.page_size) ≤ 20
      cases hp : pyInt s with
      | none => decide
      | some n =>
          show (if 0 < n then min n.toNat 20 else PerformanceSetPagination.page_size) ≤ 20
          split_ifs with h
          · exact Nat.min_le_right _ _
          · decide

/-- C8: the performance pagination has fixed default page size 3, a
`page_size` query parameter whose positive integer value overrides it after
capping at `max_page_size = 20`, and no returned page is longer than 20. -/
theorem c8_pagination_default_override_cap :
    PerformanceSetPagination.get_page_size none = 3
    ∧ PerformanceSetPagination.page_size_query_param = "page_size"
    ∧ (∀ s n, pyInt s = some n → 0 < n →
        PerformanceSetPagination.get_page_size (some s) = min n.toNat 20)
    ∧ (∀ (rows : List (Performance × Option Int)) (param : Option String)
        (page : Nat),
        (PerformanceSetPagination.paginate rows param page).length ≤ 20) := by
  refine ⟨rfl, rfl, ?_, ?_⟩
  · intro s n hp hn
    simp [PerformanceSetPagination.get_page_size, hp, hn,
      PerformanceSetPagination.max_page_size]
  · intro rows param page
    unfold PerformanceSetPagination.paginate
    refine le_trans (List.length_take_le _ _) ?_
    exact get_page_size_le_cap param

/-- Witness for C8: a requested `page_size=50` is capped to `min 50 20`. -/
theorem c8_witness :
    PerformanceSetPagination.get_page_size (some "50") = min (Int.toNat 50) 20 :=
  c8_pagination_default_override_cap.2.2.1 "50" 50 (by decide) (by decide)

/-! ## C9: image upload validation -/

/-- C9: the upload endpoint accepts the payload and stores it on the play
only when the external decoder recognises it as an image (HTTP 200); a
malformed payload is rejected with a field validation error on `image`
(HTTP 400) and the play is unchanged. -/
theorem c9_upload_image_validates (decode : List Nat → Option (List Nat))
    (play : Play) (data : List Nat) :
    (decode data = none →
      PlayViewSet.upload_image decode play data =
        { status := 400, errorFields := ["image"], play := play })
    ∧ (decode data ≠ none →
      PlayViewSet.upload_image decode play data =
        { status := 200, errorFields := [],
          play := { play with image := some data } }) := by
  constructor <;> intro hd <;>
    simp [PlayViewSet.upload_image, PlayImageSerializer.is_valid,
      Option.isSome_iff_ne_none, hd]

/-- Witness for C9: a decoder accepting only `[0]` rejects payload `[1]`
with a 400 naming the `image` field, leaving the play unchanged. -/
theorem c9_witness :
    PlayViewSet.upload_image (fun l => if l = [0] then some l else none)
        hamlet [1] =
      { status := 400, errorFields := ["image"], play := hamlet } :=
  (c9_upload_image_validates (fun l => if l = [0] then some l else none)
    hamlet [1]).1 (by decide)

/-! ## C10: malformed filter ids raise an uncaught ValueError -/

/-- C10: a play-list request whose `actors` parameter holds a non-integer
token makes `_params_to_ints` raise an uncaught `ValueError` — surfaced by
`get_queryset` as `PyError.valueError`, not as a field-scoped
`validationError` of the documented error taxonomy. -/
theorem c10_malformed_filter_id_raises :
    PlayViewSet.params_to_ints "a,2" = none
    ∧ PlayViewSet.get_queryset dupCatalog "list"
        { title := none, actors := some "a,2", genres := none } =
      .error .valueError := by
  decide
